import Mathlib

/-!
Verification of `resultpp::internal::ResultImpl<T>` (src/lib/ResultImpl.hxx).

The C++ class stores two fields: `T _type` (the payload) and
`std::string _message` (the error text).  Success/failure is derived solely
from the message being empty.  We embed the class shallowly as a Lean
structure with the same two fields, and each member function as a Lean
function from the pre-state (and arguments) to its result / post-state.

The only constructors of the class are
  `ResultImpl(T&& type, std::string&& msg = "")` and
  `ResultImpl(const T& type, const std::string& msg = "")`,
both of which place the first argument in the value slot and the second
(defaulted to the empty string) in the message slot.  Calls such as
`ResultImpl<U>(Message())` therefore pass the message string as the
*value* argument, relying on an implicit C++ conversion from
`std::string` to `U`; we model that implicit conversion by an explicit
function parameter (`convU : String → U`, identity at `U = String`, the
instantiation at which the C++ code actually compiles).
-/

namespace resultpp

/-- Shallow embedding of `resultpp::internal::ResultImpl<T>`:
field `_type` is the payload `T _type`, field `_message` is
`std::string _message` (line 29-30 of ResultImpl.hxx). -/
structure ResultImpl (T : Type) where
  _type : T
  _message : String
deriving DecidableEq, Repr

namespace ResultImpl

variable {T U : Type}

/-- The two-argument constructor `ResultImpl(type, msg)` (lines 44-48):
stores the first argument in the value slot and the second in the message
slot. -/
def make (type : T) (msg : String) : ResultImpl T :=
  ⟨type, msg⟩

/-- The one-argument constructor call `ResultImpl(type)` with the defaulted
message argument `msg = ""` (lines 44-48). -/
def ofData (type : T) : ResultImpl T :=
  make type ""

/-- `Data()` (line 113): returns the stored value `_type`. -/
def Data (r : ResultImpl T) : T :=
  r._type

/-- `Message()` (line 119): returns the stored message `_message`. -/
def Message (r : ResultImpl T) : String :=
  r._message

/-- `IsOk()` (line 137): `return _message.empty();`. -/
def IsOk (r : ResultImpl T) : Bool :=
  r._message.isEmpty

/-- `IsErr()` (line 143): `return !_message.empty();`. -/
def IsErr (r : ResultImpl T) : Bool :=
  !r._message.isEmpty

/-- `operator=(const std::string &message)` (line 54), the message setter
(the spec calls it `SetMessage`): `this->_message = message;`, leaving the
value slot alone. -/
def SetMessage (r : ResultImpl T) (message : String) : ResultImpl T :=
  { r with _message := message }

/-- `SetData` (lines 125-131; both the rvalue and the lvalue overload have
the same effect): `_type = data;`, leaving the message slot alone.  The
`operator<<` value setter (lines 104-107) performs the same assignment. -/
def SetData (r : ResultImpl T) (data : T) : ResultImpl T :=
  { r with _type := data }

/-- `operator=(const resultimpl_t &ri)` (lines 60-65), what the spec calls
`ReplaceFrom`, modelled as a function from the pre-states of the pair
`(*this, ri)` to their post-states.  The body runs
`this->_type = std::move(ri._type); this->_message = ri._message;`; since
`ri` is a `const` reference, `std::move(ri._type)` yields a
`const T&&` that binds to the copy-assignment operator, so the source
object is copied from and left unchanged — the second component of the
returned pair.  The guard `if (this == &ri) return;` makes the aliased
call `a = a` an early-returning no-op; in this value-level model the
aliased call is `replaceFromPair a a`, whose first component
`⟨a._type, a._message⟩` coincides with the unchanged `a`, so the single
definition covers both the guarded and the fall-through path. -/
def replaceFromPair (_target source : ResultImpl T) :
    ResultImpl T × ResultImpl T :=
  (⟨source._type, source._message⟩, source)

/-- First line of `friend void swap(r1, r2)` (line 94):
`std::swap(r1._type, r2._type);` exchanges the value slots only. -/
def swapTypes (p : ResultImpl T × ResultImpl T) :
    ResultImpl T × ResultImpl T :=
  (⟨p.2._type, p.1._message⟩, ⟨p.1._type, p.2._message⟩)

/-- Second line of `friend void swap(r1, r2)` (line 95):
`std::swap(r1._message, r2._message);` exchanges the message slots only. -/
def swapMessages (p : ResultImpl T × ResultImpl T) :
    ResultImpl T × ResultImpl T :=
  (⟨p.1._type, p.2._message⟩, ⟨p.2._type, p.1._message⟩)

/-- `friend void swap(resultimpl_t &r1, resultimpl_t &r2)` (lines 93-96):
the two `std::swap` calls in sequence, as a function from the pre-states
of `(r1, r2)` to their post-states. -/
def swap (r1 r2 : ResultImpl T) : ResultImpl T × ResultImpl T :=
  swapMessages (swapTypes (r1, r2))

/-- `operator==` (lines 73-75), what the spec calls `Equals`:
`return _type == lhs._type;` — compares the value slots only. -/
def Equals [DecidableEq T] (r lhs : ResultImpl T) : Bool :=
  decide (r._type = lhs._type)

/-- `operator!=` (lines 83-85), what the spec calls `NotEquals`:
`return _type != lhs._type;` — compares the value slots only. -/
def NotEquals [DecidableEq T] (r lhs : ResultImpl T) : Bool :=
  decide (¬ r._type = lhs._type)

/-- `Map<U>(std::function<U(const T&)> func)` (lines 155-159):
`if (IsOk()) return ResultImpl<U>(func(Data())); return ResultImpl<U>(Message());`.
In the second return the message string is passed as the first constructor
argument (the *value* slot) and is converted to `U` by the implicit C++ conversion,
modelled by `convU` (the identity at `U = String`; for a `U` not
constructible from `std::string` the C++ line does not compile at all). -/
def Map (r : ResultImpl T) (func : T → U) (convU : String → U) :
    ResultImpl U :=
  if r.IsOk then ofData (func r.Data) else ofData (convU r.Message)

/-- `MapErr<U>(std::function<U(const T&)> func)` (lines 170-174):
`if (IsOk()) return ResultImpl<U>(func(Message())); return ResultImpl<U>(Data());`.
`func` expects a `const T&`, so `func(Message())` first converts the
message string to `T` (modelled by `convT`); the second return passes the
stored `T` value to the value argument of `ResultImpl<U>` through the implicit
conversion `T` to `U` (modelled by `convU`).  Both are the identity at
`T = U = String`. -/
def MapErr (r : ResultImpl T) (func : T → U) (convT : String → T)
    (convU : T → U) : ResultImpl U :=
  if r.IsOk then ofData (func (convT r.Message)) else ofData (convU r.Data)

/-- `Or(const resultimpl_t &other)` (lines 187-192):
`if (IsOk()) return resultimpl_t(Data()); if (IsErr()) return resultimpl_t(other.Message()); return resultimpl_t(Message());`.
In the second and third return the message string is passed as the
first constructor argument (the *value* slot) through the implicit conversion from
`std::string` to `T`, modelled by `convT` (identity at `T = String`).
The third return is unreachable because `IsOk` and `IsErr` are
complementary, but it is kept to mirror the source. -/
def Or (r other : ResultImpl T) (convT : String → T) : ResultImpl T :=
  if r.IsOk then ofData r.Data
  else if r.IsErr then ofData (convT other.Message)
  else ofData (convT r.Message)

/-- `OrElse(std::function<resultimpl_t(const std::string&)> func)`
(lines 205-209):
`if (IsOk()) return resultimpl_t(Data()); return func(Message());`. -/
def OrElse (r : ResultImpl T) (func : String → ResultImpl T) :
    ResultImpl T :=
  if r.IsOk then ofData r.Data else func r.Message

end ResultImpl

/-- C1: for every instance, at every point in its lifetime, `IsOk()` is true
iff the stored message string is empty, `IsErr()` is true iff the message is
non-empty, and exactly one of them holds (`IsOk` is the Boolean negation of
`IsErr`). -/
theorem isOk_isErr_complementary (T : Type) (r : ResultImpl T) :
    r.IsOk = r.Message.isEmpty ∧ r.IsErr = (!r.Message.isEmpty) ∧
    r.IsOk = (!r.IsErr) := by
  refine ⟨rfl, rfl, ?_⟩
  simp [ResultImpl.IsOk, ResultImpl.IsErr]

/-- C2: evaluation of `Map` at the failing input.  On the Err-state outcome
`("5", "boom")` at `T = U = String`, the second return
`ResultImpl<U>(Message())` passes the message as the constructor value
argument, so `Map` produces an Ok-state result whose data slot holds the
original message and whose message slot is empty — not the Err-state,
message-preserving, default-data result that the claim (and the doc comment
of the method itself) describe, and the mapping function is not applied. -/
theorem map_err_branch_puts_message_in_value_slot :
    ((ResultImpl.make "5" "boom").Map (fun x => x ++ x) id).IsOk = true ∧
    ((ResultImpl.make "5" "boom").Map (fun x => x ++ x) id).Data = "boom" ∧
    ((ResultImpl.make "5" "boom").Map (fun x => x ++ x) id).Message = "" := by
  refine ⟨rfl, rfl, rfl⟩

/-- C3: evaluation of `Or` at the failing input.  With self the Err-state
outcome `("a", "err1")` and other `("b", "err2")` at `T = String`, the
second return `resultimpl_t(other.Message())` passes the message of `other`
as the constructor value argument, so `Or` produces an Ok-state result:
the message of `other` lands in the data slot, the message slot is empty,
and the result signals no error — not an outcome carrying the message of
`other` in its message slot as the claim states. -/
theorem or_err_branch_puts_message_in_value_slot :
    ((ResultImpl.make "a" "err1").Or (ResultImpl.make "b" "err2") id).IsErr
      = false ∧
    ((ResultImpl.make "a" "err1").Or (ResultImpl.make "b" "err2") id).Data
      = "err2" ∧
    ((ResultImpl.make "a" "err1").Or (ResultImpl.make "b" "err2") id).Message
      = "" := by
  refine ⟨rfl, rfl, rfl⟩

/-- C4: the branches of `MapErr` are inverted relative to `Map`: when
`IsOk()` is true it applies `func` to the current message (converted to `T`
for the parameter of `func`) and returns a result built from that, and when
`IsErr()` is true it does not apply `func` and returns a result built from
the preserved `Data()`. -/
theorem mapErr_branches_inverted (T U : Type) (r : ResultImpl T)
    (func : T → U) (convT : String → T) (convU : T → U) :
    (r.IsOk = true →
      r.MapErr func convT convU = ResultImpl.ofData (func (convT r.Message))) ∧
    (r.IsErr = true →
      r.MapErr func convT convU = ResultImpl.ofData (convU r.Data)) := by
  constructor
  · intro h
    simp [ResultImpl.MapErr, h]
  · intro h
    have hok : r.IsOk = false := by
      simpa [ResultImpl.IsErr, ResultImpl.IsOk] using h
    simp [ResultImpl.MapErr, hok]

/-- Witness for C4: both branches of `mapErr_branches_inverted` applied at
concrete inputs — on the Ok-state `("x", "")` the function is applied to the
message, on the Err-state `("y", "e")` the data is preserved. -/
theorem mapErr_branches_inverted_witness :
    (ResultImpl.make "x" "").MapErr (fun s => s ++ "!") id id
      = ResultImpl.ofData "!" ∧
    (ResultImpl.make "y" "e").MapErr (fun s => s ++ "!") id id
      = ResultImpl.ofData "y" := by
  constructor
  · have h := (mapErr_branches_inverted String String (ResultImpl.make "x" "")
      (fun s => s ++ "!") id id).1 rfl
    rw [h]
    rfl
  · have h := (mapErr_branches_inverted String String (ResultImpl.make "y" "e")
      (fun s => s ++ "!") id id).2 rfl
    rw [h]
    rfl

/-- C5: if the outcome is Ok, `OrElse` returns a new success outcome holding
the stored value and the recovery function is never invoked (the result does
not depend on it); if the outcome is Err, `OrElse` returns exactly the
outcome produced by invoking the function with the stored message. -/
theorem orElse_ok_bypasses_err_recovers (T : Type) (r : ResultImpl T)
    (func : String → ResultImpl T) :
    (r.IsOk = true →
      r.OrElse func = ResultImpl.ofData r.Data ∧
      ∀ g : String → ResultImpl T, r.OrElse func = r.OrElse g) ∧
    (r.IsErr = true → r.OrElse func = func r.Message) := by
  constructor
  · intro h
    refine ⟨by simp [ResultImpl.OrElse, h], fun g => by simp [ResultImpl.OrElse, h]⟩
  · intro h
    have hok : r.IsOk = false := by
      simpa [ResultImpl.IsErr, ResultImpl.IsOk] using h
    simp [ResultImpl.OrElse, hok]

/-- Witness for C5: `Outcome(7).OrElse(msg => Outcome(99))` keeps the value
7 (the recovery function is bypassed), and
`Outcome(0, "fail").OrElse(msg => Outcome(99))` recovers to the value 99. -/
theorem orElse_ok_bypasses_err_recovers_witness :
    ((ResultImpl.make (7 : Int) "").OrElse
      (fun _ => ResultImpl.ofData 99)).Data = 7 ∧
    ((ResultImpl.make (0 : Int) "fail").OrElse
      (fun _ => ResultImpl.ofData 99)).Data = 99 := by
  constructor
  · have h := ((orElse_ok_bypasses_err_recovers Int (ResultImpl.make 7 "")
      (fun _ => ResultImpl.ofData 99)).1 rfl).1
    rw [h]
    rfl
  · have h := (orElse_ok_bypasses_err_recovers Int (ResultImpl.make 0 "fail")
      (fun _ => ResultImpl.ofData 99)).2 rfl
    rw [h]
    rfl

/-- C6: `Equals` holds iff the stored values are equal, regardless of the
messages — in particular two outcomes with the same value and different
messages are equal — and `NotEquals` is the value-inequality counterpart. -/
theorem equals_ignores_message (T : Type) [DecidableEq T] (v : T)
    (m1 m2 : String) (_h : m1 ≠ m2) (a b : ResultImpl T) :
    (ResultImpl.make v m1).Equals (ResultImpl.make v m2) = true ∧
    (a.Equals b = true ↔ a.Data = b.Data) ∧
    (a.NotEquals b = true ↔ ¬a.Data = b.Data) := by
  refine ⟨?_, ?_, ?_⟩
  · simp [ResultImpl.Equals, ResultImpl.make]
  · simp [ResultImpl.Equals, ResultImpl.Data]
  · simp [ResultImpl.NotEquals, ResultImpl.Data]

/-- Witness for C6: `Outcome(1, "a").Equals(Outcome(1, "b"))` is true even
though the messages differ. -/
theorem equals_ignores_message_witness :
    (ResultImpl.make (1 : Int) "a").Equals (ResultImpl.make 1 "b") = true :=
  (equals_ignores_message Int 1 "a" "b" (by decide)
    (ResultImpl.ofData 0) (ResultImpl.ofData 0)).1

/-- C7: `SetData` changes only the value slot, leaving the message and hence
the Ok/Err state exactly as they were, and `SetMessage` (the string
assignment operator) changes only the message slot, leaving the data exactly
as it was. -/
theorem setData_setMessage_independent (T : Type) (r : ResultImpl T)
    (v : T) (m : String) :
    (r.SetData v).Message = r.Message ∧
    (r.SetData v).IsOk = r.IsOk ∧
    (r.SetData v).IsErr = r.IsErr ∧
    (r.SetData v).Data = v ∧
    (r.SetMessage m).Data = r.Data ∧
    (r.SetMessage m).Message = m := by
  exact ⟨rfl, rfl, rfl, rfl, rfl, rfl⟩

/-- C8: the self-replace `a.ReplaceFrom(a)` leaves `a` completely unchanged:
the post-state of the assignment target equals `a` (and so does the source),
both in value and in message. -/
theorem replaceFrom_self_noop (T : Type) (a : ResultImpl T) :
    (ResultImpl.replaceFromPair a a).1 = a ∧
    (ResultImpl.replaceFromPair a a).2 = a := by
  exact ⟨rfl, rfl⟩

/-- C9: after `Swap(a, b)` the first instance holds exactly the original
data and message of `b` and the second holds exactly the original data and
message of `a` — both fields are exchanged together. -/
theorem swap_exchanges_both_fields (T : Type) (a b : ResultImpl T) :
    (ResultImpl.swap a b).1.Data = b.Data ∧
    (ResultImpl.swap a b).1.Message = b.Message ∧
    (ResultImpl.swap a b).2.Data = a.Data ∧
    (ResultImpl.swap a b).2.Message = a.Message := by
  exact ⟨rfl, rfl, rfl, rfl⟩

/-- C10: for distinct outcomes, `a.ReplaceFrom(b)` leaves the source `b`
unchanged (in the C++ body `std::move` is applied to a `const` reference, so
the source is copied from, not consumed), while the target takes both the
value and the message of `b`. -/
theorem replaceFrom_preserves_source (T : Type) (a b : ResultImpl T)
    (_h : a ≠ b) :
    (ResultImpl.replaceFromPair a b).2.Data = b.Data ∧
    (ResultImpl.replaceFromPair a b).2.Message = b.Message ∧
    (ResultImpl.replaceFromPair a b).1 = ResultImpl.make b.Data b.Message := by
  exact ⟨rfl, rfl, rfl⟩

/-- Witness for C10: replacing `(1, "x")` from the distinct outcome
`(2, "y")` leaves the source with its original data. -/
theorem replaceFrom_preserves_source_witness :
    (ResultImpl.replaceFromPair (ResultImpl.make (1 : Int) "x")
      (ResultImpl.make 2 "y")).2.Data = 2 :=
  (replaceFrom_preserves_source Int (ResultImpl.make 1 "x")
    (ResultImpl.make 2 "y") (by decide)).1

end resultpp
